import Mathlib

set_option maxRecDepth 100000

/-!
Shallow embedding of the position lifecycle and risk-management engine of
`src/trading1212.js` (HighFrequencyTradingAlgo).  Monetary quantities are
modelled as exact rationals (the source uses the arbitrary-precision
`Decimal.js` type for all money and price arithmetic), the mutable module
globals (`realBalance`, `fakeBalance`, `walletBalance`, the PnL counters,
`activeTrades`) become an explicit `EngineState` record, and each stateful
routine becomes a state-passing function.  The outcome of the live order
submission to the exchange (a fallible external call) is passed in as a
boolean parameter, and every order handed to the exchange gateway is logged
in the state so that theorems can talk about which orders were submitted.
-/

namespace HFT

/-- Trade direction, source strings `'long'` / `'short'`. -/
inductive Direction where
  | long
  | short
deriving DecidableEq

/-- Hedge-leg role, source strings `'favorable'` / `'unfavorable'`. -/
inductive Alloc where
  | favorable
  | unfavorable
deriving DecidableEq

/-- Order side handed to the exchange, source strings `'BUY'` / `'SELL'`. -/
inductive Side where
  | buy
  | sell
deriving DecidableEq

/-- Recorded outcome of a settled trade, source strings `'win'` / `'loss'`. -/
inductive Outcome where
  | win
  | loss
deriving DecidableEq

/-- Trading parameter `stopLossPercentage = 1.5` (trading1212.js line 78). -/
def stopLossPercentage : ℚ := 3 / 2

/-- Trading parameter `takeProfitPercentage = 6` (line 79). -/
def takeProfitPercentage : ℚ := 6

/-- Trading parameter `maxSpotDrawdownPercentage = 2` (line 81). -/
def maxSpotDrawdownPercentage : ℚ := 2

/-- Trading parameter `leverage = 5` (line 82). -/
def leverage : ℚ := 5

/-- Fallback `defaultBaseProbability = 75` (line 80). -/
def defaultBaseProbability : ℚ := 75

/-- A position object as built by `placeSpotTrade` / `placeFutureTrade`.
The source stores `type` (and the equal field `tradeMode`) as a free-form
string: every call site passes the trade mode `'real'` or `'fake'` in this
slot, but `placeFutureTrade` also compares it against `'futures'`, so the
embedding keeps it as a `String`. -/
structure Trade where
  id : Nat
  entryPrice : ℚ
  amount : ℚ
  stopLoss : ℚ
  takeProfit : ℚ
  peakProfit : ℚ
  peakPrice : ℚ
  type : String
  direction : Direction
  leverage : ℚ
  feeRate : ℚ
  entryFee : ℚ
  allocation : Alloc
  isReallocated : Bool
deriving DecidableEq

/-- A market order submitted to the exchange gateway
(`binance.order` / `binance.futuresOrder` with side and quantity). -/
structure MarketOrder where
  side : Side
  quantity : ℚ
deriving DecidableEq

/-- The persistent record written by `Trade.create` in `handleTradeClosure`
(the fields the claims are about). -/
structure TradeRecord where
  id : Nat
  direction : Direction
  type : String
  outcome : Outcome
  netPnl : ℚ
  allocation : Alloc
  isReallocated : Bool
deriving DecidableEq

/-- Module-level mutable state of trading1212.js: the three balance ledgers,
the three cumulative PnL counters, the active-position set, the log of
orders submitted to the exchange, the log of settled-trade records, and a
fresh-id counter standing for `generateTradeId`. -/
structure EngineState where
  realBalance : ℚ
  fakeBalance : ℚ
  walletBalance : ℚ
  fakePnL : ℚ
  realPnL : ℚ
  spotPnL : ℚ
  activeTrades : List Trade
  submittedOrders : List MarketOrder
  tradeLog : List TradeRecord
  nextId : Nat
deriving DecidableEq

/-- Ledger selected by the mode string:
`type === 'real' ? realBalance : fakeBalance` (lines 724, 801). -/
def modeBalance (st : EngineState) (type : String) : ℚ :=
  if type = "real" then st.realBalance else st.fakeBalance

/-- Debit of the selected ledger (lines 731-737, 808-814). -/
def debitModeBalance (st : EngineState) (type : String) (cost : ℚ) : EngineState :=
  if type = "real" then { st with realBalance := st.realBalance - cost }
  else { st with fakeBalance := st.fakeBalance - cost }

/-- `entryFee = entryPrice × amount × feeRate` (lines 721, 797). -/
def entryFeeOf (entryPrice amount feeRate : ℚ) : ℚ :=
  entryPrice * amount * feeRate

/-- `initialMargin = type === 'futures' ? entryPrice·amount/leverage : 0`
(line 799). -/
def futureInitialMargin (entryPrice amount : ℚ) (type : String) : ℚ :=
  if type = "futures" then entryPrice * amount / leverage else 0

/-- `totalCost` of `placeFutureTrade` (line 802): margin + fee when the
`type` string is `'futures'`, otherwise notional + fee. -/
def futureTotalCost (entryPrice amount feeRate : ℚ) (type : String) : ℚ :=
  if type = "futures" then
    futureInitialMargin entryPrice amount type + entryFeeOf entryPrice amount feeRate
  else entryPrice * amount + entryFeeOf entryPrice amount feeRate

/-- `totalCost` of `placeSpotTrade` (line 723): notional + fee. -/
def spotTotalCost (entryPrice amount feeRate : ℚ) : ℚ :=
  entryPrice * amount + entryFeeOf entryPrice amount feeRate

/-- Order side derived from the direction (lines 749, 827). -/
def orderSide (direction : Direction) : Side :=
  match direction with
  | .long => .buy
  | .short => .sell

/-- Direction-dependent stop loss of `placeFutureTrade` (lines 816-818). -/
def futureStopLoss (entryPrice : ℚ) (direction : Direction) : ℚ :=
  match direction with
  | .long => entryPrice * (1 - stopLossPercentage / 100)
  | .short => entryPrice * (1 + stopLossPercentage / 100)

/-- Direction-dependent take profit of `placeFutureTrade` (lines 819-821). -/
def futureTakeProfit (entryPrice : ℚ) (direction : Direction) : ℚ :=
  match direction with
  | .long => entryPrice * (1 + takeProfitPercentage / 100)
  | .short => entryPrice * (1 - takeProfitPercentage / 100)

/-- Stop loss of `placeSpotTrade` (line 741): always the long-direction
formula, the `direction` argument is not consulted. -/
def spotStopLoss (entryPrice : ℚ) : ℚ :=
  entryPrice * (1 - stopLossPercentage / 100)

/-- Take profit of `placeSpotTrade` (line 742): always the long-direction
formula, the `direction` argument is not consulted. -/
def spotTakeProfit (entryPrice : ℚ) : ℚ :=
  entryPrice * (1 + takeProfitPercentage / 100)

/-- The trade object literal pushed by `placeFutureTrade` (lines 846-863). -/
def openedFutureTrade (st : EngineState) (entryPrice amount : ℚ) (direction : Direction)
    (type : String) (allocation : Alloc) (feeRate : ℚ) : Trade :=
  { id := st.nextId
    entryPrice := entryPrice
    amount := amount
    stopLoss := futureStopLoss entryPrice direction
    takeProfit := futureTakeProfit entryPrice direction
    peakProfit := 0
    peakPrice := entryPrice
    type := type
    direction := direction
    leverage := if type = "futures" then leverage else 1
    feeRate := feeRate
    entryFee := entryFeeOf entryPrice amount feeRate
    allocation := allocation
    isReallocated := false }

/-- The trade object literal pushed by `placeSpotTrade` (lines 767-784):
`leverage` is 1 and `allocation` is hard-coded `'favorable'`. -/
def openedSpotTrade (st : EngineState) (entryPrice amount : ℚ) (type : String)
    (direction : Direction) (feeRate : ℚ) : Trade :=
  { id := st.nextId
    entryPrice := entryPrice
    amount := amount
    stopLoss := spotStopLoss entryPrice
    takeProfit := spotTakeProfit entryPrice
    peakProfit := 0
    peakPrice := entryPrice
    type := type
    direction := direction
    leverage := 1
    feeRate := feeRate
    entryFee := entryFeeOf entryPrice amount feeRate
    allocation := Alloc.favorable
    isReallocated := false }

/-- `placeFutureTrade(entryPrice, amount, direction, type, allocation)`
(lines 793-870).  `feeRate` is the taker fee resolved for the trade and
`orderOk` is the outcome of the live `binance.futuresOrder` submission:
the source debits the selected ledger, then always submits the market
order; when the submission fails the surrounding `catch` merely logs, so
the debit stays and no position is registered. -/
def placeFutureTrade (st : EngineState) (entryPrice amount : ℚ) (direction : Direction)
    (type : String) (allocation : Alloc) (feeRate : ℚ) (orderOk : Bool) : EngineState :=
  let totalCost := futureTotalCost entryPrice amount feeRate type
  if totalCost > modeBalance st type then st
  else
    let st1 := debitModeBalance st type totalCost
    let st2 := { st1 with
      submittedOrders := st1.submittedOrders ++ [⟨orderSide direction, amount⟩] }
    if orderOk then
      { st2 with
        activeTrades := st2.activeTrades
          ++ [openedFutureTrade st entryPrice amount direction type allocation feeRate]
        nextId := st2.nextId + 1 }
    else st2

/-- `placeSpotTrade(entryPrice, amount, type, direction)` (lines 717-791).
After the balance check the source debits the mode ledger by the total
cost and the wallet quantity ledger by `amount`, then always submits the
live spot order; a failed submission leaves both debits in place. -/
def placeSpotTrade (st : EngineState) (entryPrice amount : ℚ) (type : String)
    (direction : Direction) (feeRate : ℚ) (orderOk : Bool) : EngineState :=
  let totalCost := spotTotalCost entryPrice amount feeRate
  if totalCost > modeBalance st type then st
  else
    let st1 := debitModeBalance st type totalCost
    let st2 := { st1 with walletBalance := st1.walletBalance - amount }
    let st3 := { st2 with
      submittedOrders := st2.submittedOrders ++ [⟨orderSide direction, amount⟩] }
    if orderOk then
      { st3 with
        activeTrades := st3.activeTrades
          ++ [openedSpotTrade st entryPrice amount type direction feeRate]
        nextId := st3.nextId + 1 }
    else st3

/-- Unrealized profit of a position at a price (lines 493-498):
`(long ? price−entry : entry−price) × amount × leverage`. -/
def currentProfitOf (t : Trade) (price : ℚ) : ℚ :=
  match t.direction with
  | .long => (price - t.entryPrice) * t.amount * t.leverage
  | .short => (t.entryPrice - price) * t.amount * t.leverage

/-- Peak ratchet of `monitorActiveTrades` (lines 500-504): when the current
profit strictly exceeds `peakProfit`, both `peakProfit` and `peakPrice`
are updated; otherwise neither changes. -/
def updatePeak (t : Trade) (price : ℚ) : Trade :=
  if currentProfitOf t price > t.peakProfit then
    { t with peakProfit := currentProfitOf t price, peakPrice := price }
  else t

/-- `allowedDrawdown = peakPrice × maxSpotDrawdownPercentage / 100`
(line 506). -/
def allowedDrawdown (t : Trade) : ℚ :=
  t.peakPrice * maxSpotDrawdownPercentage / 100

/-- Trailing stop price (lines 507-509): peak minus the allowed drawdown
for longs, peak plus it for shorts. -/
def maxDrawdownPrice (t : Trade) : ℚ :=
  match t.direction with
  | .long => t.peakPrice - allowedDrawdown t
  | .short => t.peakPrice + allowedDrawdown t

/-- Take-profit condition (lines 511-512): long `price ≥ takeProfit`,
short `price ≤ takeProfit`. -/
def takeProfitHit (t : Trade) (price : ℚ) : Bool :=
  match t.direction with
  | .long => decide (t.takeProfit ≤ price)
  | .short => decide (price ≤ t.takeProfit)

/-- Stop-loss / trailing-drawdown condition (lines 518-519). -/
def stopLossHit (t : Trade) (price : ℚ) : Bool :=
  match t.direction with
  | .long => decide (price ≤ maxDrawdownPrice t) || decide (price ≤ t.stopLoss)
  | .short => decide (maxDrawdownPrice t ≤ price) || decide (t.stopLoss ≤ price)

/-- What the monitor pass decides to do with one position on one tick. -/
inductive MonitorAction where
  | takeProfitClose
  | stopLossClose
  | hold
deriving DecidableEq

/-- One iteration of the `monitorActiveTrades` loop body for one position
(lines 489-526): ratchet the peak, then check take profit first and stop
loss second; returns the (peak-updated) position and the decision taken. -/
def monitorStep (t : Trade) (price : ℚ) : Trade × MonitorAction :=
  let t1 := updatePeak t price
  if takeProfitHit t1 price then (t1, MonitorAction.takeProfitClose)
  else if stopLossHit t1 price then (t1, MonitorAction.stopLossClose)
  else (t1, MonitorAction.hold)

/-- `exitFee = exitPrice × amount × feeRate` (line 881). -/
def exitFeeOf (price amount feeRate : ℚ) : ℚ :=
  price * amount * feeRate

/-- `grossPnl` of `handleTradeClosure` (lines 883-885). -/
def grossPnlOf (t : Trade) (price : ℚ) : ℚ :=
  match t.direction with
  | .long => (price - t.entryPrice) * t.amount * t.leverage
  | .short => (t.entryPrice - price) * t.amount * t.leverage

/-- `netPnl = grossPnl − entryFee − exitFee` (line 886). -/
def netPnlOf (t : Trade) (price feeRate : ℚ) : ℚ :=
  grossPnlOf t price - t.entryFee - exitFeeOf price t.amount feeRate

/-- Opposite direction, `trade.direction === 'long' ? 'short' : 'long'`
(line 895). -/
def oppositeDirection (d : Direction) : Direction :=
  match d with
  | .long => .short
  | .short => .long

/-- Reallocation guard of `handleTradeClosure` (line 891):
`netPnl.isNegative() && isUnfavorable && !trade.isReallocated`. -/
def reallocationTriggered (t : Trade) (price feeRate : ℚ) : Bool :=
  decide (netPnlOf t price feeRate < 0)
    && decide (t.allocation = Alloc.unfavorable)
    && !t.isReallocated

/-- The settled-trade record written by `Trade.create` (lines 908-924);
`isReallocated` is saved after the in-place mutation at line 899, so it is
`true` exactly when the reallocation guard fired. -/
def closureRecord (t : Trade) (price feeRate : ℚ) : TradeRecord :=
  { id := t.id
    direction := t.direction
    type := t.type
    outcome := if 0 ≤ netPnlOf t price feeRate then Outcome.win else Outcome.loss
    netPnl := netPnlOf t price feeRate
    allocation := t.allocation
    isReallocated := if reallocationTriggered t price feeRate then true else t.isReallocated }

/-- `handleTradeClosure(trade, currentPrice)` (lines 872-958).  `feeRate`
is the resolved exit fee rate; `reallocFeeRate` and `reallocOrderOk` feed
the nested `placeFutureTrade` call of the reallocation rule, which runs
before the settlement ledger update.  The ledger update branches on the
`type` string: `'fake'` and `'real'` credit `netPnl + amount` to the mode
ledger and bump its PnL counter; any other string takes the spot
settlement branch (spot PnL, wallet restore, notional re-credit).
Finally the closed position is removed from the active set by id. -/
def handleTradeClosure (st : EngineState) (trade : Trade) (currentPrice feeRate reallocFeeRate : ℚ)
    (reallocOrderOk : Bool) : EngineState :=
  let netPnl := netPnlOf trade currentPrice feeRate
  let st1 :=
    if reallocationTriggered trade currentPrice feeRate then
      placeFutureTrade st currentPrice trade.amount (oppositeDirection trade.direction)
        trade.type Alloc.favorable reallocFeeRate reallocOrderOk
    else st
  let st2 := { st1 with tradeLog := st1.tradeLog ++ [closureRecord trade currentPrice feeRate] }
  let st3 :=
    if trade.type = "fake" then
      { st2 with
        fakeBalance := st2.fakeBalance + netPnl + trade.amount
        fakePnL := st2.fakePnL + netPnl }
    else if trade.type = "real" then
      { st2 with
        realBalance := st2.realBalance + netPnl + trade.amount
        realPnL := st2.realPnL + netPnl }
    else
      let st2a := { st2 with
        spotPnL := st2.spotPnL + netPnl
        walletBalance := st2.walletBalance + trade.amount }
      if trade.type = "real" then
        { st2a with realBalance := st2a.realBalance + trade.entryPrice * trade.amount }
      else
        { st2a with fakeBalance := st2a.fakeBalance + trade.entryPrice * trade.amount }
  { st3 with activeTrades := st3.activeTrades.filter (fun t => t.id != trade.id) }

/-- Indicator snapshot consumed by `calculateProbability` (the numeric
values the Indicator Provider returns for one evaluation). -/
structure IndicatorSnapshot where
  rsi : ℚ
  macdHistogram : ℚ
  sma : ℚ
  ema : ℚ
  stochasticK : ℚ
  stochasticD : ℚ
  atr : ℚ
  bollingerPrice : ℚ
  bollingerLower : ℚ
  bollingerUpper : ℚ
deriving DecidableEq

/-- Final clamp of `calculateProbability` (lines 1039-1047): first floor
negative values to 0, then cap values above 100 at 100. -/
def clampProbability (p : ℚ) : ℚ :=
  let p1 := if p < 0 then 0 else p
  if p1 > 100 then 100 else p1

/-- The additive indicator adjustments of `calculateProbability`
(lines 982-1037), before the clamp. -/
def rawProbability (s : IndicatorSnapshot) (baseProbability : ℚ) : ℚ :=
  let p1 := if s.rsi < 30 then baseProbability + 10
            else if s.rsi > 70 then baseProbability - 10 else baseProbability
  let p2 := if s.macdHistogram > 0 then p1 + 5
            else if s.macdHistogram < 0 then p1 - 5 else p1
  let p3 := if s.sma > s.ema then p2 + 5 else p2 - 5
  let p4 := if s.stochasticK < 20 ∧ s.stochasticD < 20 then p3 + 10
            else if s.stochasticK > 80 ∧ s.stochasticD > 80 then p3 - 10 else p3
  let p5 := if s.atr > 1 / 2 then p4 - 5 else p4
  if s.bollingerPrice < s.bollingerLower then p5 + 5
  else if s.bollingerPrice > s.bollingerUpper then p5 - 5 else p5

/-- `calculateProbability(...)` (lines 982-1051): indicator adjustments on
top of the base probability, clamped to [0, 100]. -/
def calculateProbability (s : IndicatorSnapshot) (baseProbability : ℚ) : ℚ :=
  clampProbability (rawProbability s baseProbability)

/-- Accumulator update of `checkPrices` (lines 594-602): reset to 0 when
the 15-minute window has elapsed, otherwise add `|probability − base|`. -/
def updatedCumulativeChange (cum probability base : ℚ) (windowElapsed : Bool) : ℚ :=
  if windowElapsed then 0 else cum + |probability - base|

/-- The probability `checkPrices` acts on (lines 590-609): the clamped
`calculateProbability` output, minus a flat 5 when the updated cumulative
deviation accumulator exceeds 20 — this subtraction happens after the
clamp and is not re-clamped. -/
def checkPricesProbability (s : IndicatorSnapshot) (base cum : ℚ)
    (windowElapsed : Bool) : ℚ :=
  let probability := calculateProbability s base
  let cum1 := updatedCumulativeChange cum probability base windowElapsed
  if cum1 > 20 then probability - 5 else probability

/-- The all-zero initial engine state. -/
def emptyState : EngineState :=
  { realBalance := 0
    fakeBalance := 0
    walletBalance := 0
    fakePnL := 0
    realPnL := 0
    spotPnL := 0
    activeTrades := []
    submittedOrders := []
    tradeLog := []
    nextId := 0 }

/-- Default trade used with `List.getD` to read a freshly opened position
out of a concrete engine state. -/
def defaultTrade : Trade :=
  { id := 0
    entryPrice := 0
    amount := 0
    stopLoss := 0
    takeProfit := 0
    peakProfit := 0
    peakPrice := 0
    type := "fake"
    direction := Direction.long
    leverage := 1
    feeRate := 0
    entryFee := 0
    allocation := Alloc.favorable
    isReallocated := false }

/-- Concrete state with ample balances in every ledger. -/
def stBalances : EngineState :=
  { emptyState with realBalance := 1000, fakeBalance := 1000, walletBalance := 1000 }

/-- Concrete state for the simulated round-trip scenario: fake ledger
seeded with 10. -/
def stRoundTrip : EngineState := { emptyState with fakeBalance := 10 }

/-- Simulated (fake-mode) open at entry price 2, amount 1, zero fees, with
the order accepted. -/
def openRoundTrip : EngineState :=
  placeFutureTrade stRoundTrip 2 1 Direction.long "fake" Alloc.favorable 0 true

/-- Concrete state for the real-mode futures open scenario. -/
def stRealOpen : EngineState := { emptyState with realBalance := 1000 }

/-- Real-mode futures open at entry price 10, amount 1, zero fees. -/
def openRealOpen : EngineState :=
  placeFutureTrade stRealOpen 10 1 Direction.long "real" Alloc.favorable 0 true

/-- Concrete state for the spot round-trip scenario: fake ledger 10,
wallet quantity ledger 5. -/
def stSpotTrip : EngineState := { emptyState with fakeBalance := 10, walletBalance := 5 }

/-- Fake-mode spot open at entry price 2, amount 1, zero fees. -/
def openSpotTrip : EngineState :=
  placeSpotTrade stSpotTrip 2 1 "fake" Direction.long 0 true

/-- Indicator snapshot whose adjustments cancel except the unconditional
SMA ≤ EMA branch: RSI 50, MACD histogram 0, SMA = EMA, stochastic 50/50,
ATR 0, price inside the Bollinger bands. -/
def neutralSnapshot : IndicatorSnapshot :=
  { rsi := 50
    macdHistogram := 0
    sma := 0
    ema := 0
    stochasticK := 50
    stochasticD := 50
    atr := 0
    bollingerPrice := 0
    bollingerLower := 0
    bollingerUpper := 0 }

/-- Long position whose take-profit (106) and trailing-drawdown stop
(peak 200, so trailing stop 196) are both satisfied by the price 110. -/
def tpSlTrade : Trade :=
  { id := 3
    entryPrice := 100
    amount := 1
    stopLoss := 197 / 2
    takeProfit := 106
    peakProfit := 100
    peakPrice := 200
    type := "fake"
    direction := Direction.long
    leverage := 1
    feeRate := 0
    entryFee := 0
    allocation := Alloc.favorable
    isReallocated := false }

/-- Concrete state for the reallocation scenario: fake ledger 100, next
fresh id 7. -/
def stRealloc : EngineState := { emptyState with fakeBalance := 100, nextId := 7 }

/-- Unfavorable long position (entry 10, amount 1, zero entry fee) that
closes at a loss at price 9. -/
def tradeRealloc : Trade :=
  { id := 3
    entryPrice := 10
    amount := 1
    stopLoss := 0
    takeProfit := 0
    peakProfit := 0
    peakPrice := 10
    type := "fake"
    direction := Direction.long
    leverage := 1
    feeRate := 0
    entryFee := 0
    allocation := Alloc.unfavorable
    isReallocated := false }

/-! Helper lemmas about the state-passing routines. -/

theorem monitorStep_fst (t : Trade) (price : ℚ) :
    (monitorStep t price).1 = updatePeak t price := by
  unfold monitorStep
  dsimp only
  split_ifs <;> rfl

theorem updatePeak_peakProfit_le (t : Trade) (price : ℚ) :
    t.peakProfit ≤ (updatePeak t price).peakProfit := by
  unfold updatePeak
  split_ifs with h
  · exact le_of_lt h
  · exact le_refl _

theorem placeFutureTrade_tradeLog (st : EngineState) (entryPrice amount : ℚ)
    (direction : Direction) (type : String) (allocation : Alloc) (feeRate : ℚ)
    (orderOk : Bool) :
    (placeFutureTrade st entryPrice amount direction type allocation feeRate orderOk).tradeLog
      = st.tradeLog := by
  unfold placeFutureTrade debitModeBalance
  dsimp only
  split_ifs <;> rfl

theorem placeFutureTrade_activeTrades_ok (st : EngineState) (entryPrice amount : ℚ)
    (direction : Direction) (type : String) (allocation : Alloc) (feeRate : ℚ)
    (h : ¬ futureTotalCost entryPrice amount feeRate type > modeBalance st type) :
    (placeFutureTrade st entryPrice amount direction type allocation feeRate true).activeTrades
      = st.activeTrades
        ++ [openedFutureTrade st entryPrice amount direction type allocation feeRate] := by
  unfold placeFutureTrade debitModeBalance
  dsimp only
  split_ifs <;>
    first
      | rfl
      | exact absurd (by assumption) h
      | exact absurd rfl (by assumption)

theorem handleTradeClosure_activeTrades (st : EngineState) (trade : Trade)
    (currentPrice feeRate reallocFeeRate : ℚ) (reallocOrderOk : Bool) :
    (handleTradeClosure st trade currentPrice feeRate reallocFeeRate reallocOrderOk).activeTrades
      = ((if reallocationTriggered trade currentPrice feeRate then
            placeFutureTrade st currentPrice trade.amount (oppositeDirection trade.direction)
              trade.type Alloc.favorable reallocFeeRate reallocOrderOk
          else st).activeTrades).filter (fun t => t.id != trade.id) := by
  unfold handleTradeClosure
  dsimp only
  split_ifs <;> rfl

theorem handleTradeClosure_tradeLog (st : EngineState) (trade : Trade)
    (currentPrice feeRate reallocFeeRate : ℚ) (reallocOrderOk : Bool) :
    (handleTradeClosure st trade currentPrice feeRate reallocFeeRate reallocOrderOk).tradeLog
      = st.tradeLog ++ [closureRecord trade currentPrice feeRate] := by
  unfold handleTradeClosure
  dsimp only
  split_ifs <;> simp [placeFutureTrade_tradeLog]

theorem clampProbability_nonneg (p : ℚ) : 0 ≤ clampProbability p := by
  unfold clampProbability
  dsimp only
  split_ifs <;> linarith

theorem clampProbability_le_100 (p : ℚ) : clampProbability p ≤ 100 := by
  unfold clampProbability
  dsimp only
  split_ifs <;> linarith

/-! Claim theorems. -/

/-- Claim C1 (evaluation at the failing input): a simulated (fake-mode)
futures open at entry price 10, amount 1, zero fees, whose live order
submission fails, still submits a market order through the gateway (fake
mode does not suppress submission), and the fake-ledger debit performed
before submission is kept (1000 → 990) while no position is registered —
so a failed open leaves the ledger changed, with no rollback. -/
theorem c1_fake_open_submits_order_and_keeps_debit :
    (placeFutureTrade stBalances 10 1 Direction.long "fake" Alloc.favorable 0 false).submittedOrders
      = [⟨Side.buy, 1⟩]
    ∧ (placeFutureTrade stBalances 10 1 Direction.long "fake" Alloc.favorable 0 false).fakeBalance
      = 990
    ∧ (placeFutureTrade stBalances 10 1 Direction.long "fake" Alloc.favorable 0 false).activeTrades
      = []
    ∧ stBalances.fakeBalance = 1000 := by
  with_unfolding_all decide

/-- Claim C2 (evaluation at the failing input): a simulated round trip —
open at entry price 2, amount 1, close at the same price 2, all fee rates
zero — starts with fake balance 10, debits the notional 2 at the open
(10 → 8), but the settlement credits back `netPnl + amount` = 0 + 1
(8 → 9), so the ending balance 9 differs from the starting balance 10. -/
theorem c2_simulated_round_trip_not_conserved :
    stRoundTrip.fakeBalance = 10
    ∧ openRoundTrip.fakeBalance = 8
    ∧ (handleTradeClosure openRoundTrip (openRoundTrip.activeTrades.getD 0 defaultTrade)
        2 0 0 false).fakeBalance = 9
    ∧ (handleTradeClosure openRoundTrip (openRoundTrip.activeTrades.getD 0 defaultTrade)
        2 0 0 false).fakeBalance ≠ stRoundTrip.fakeBalance := by
  with_unfolding_all decide

/-- Claim C3 (evaluation at the failing input): a real-mode futures open
(entry price 10, amount 1, zero fees) — the `type` slot of
`placeFutureTrade` receives the mode string `'real'`, so the
`type === 'futures'` margin branch is dead: the computed initial margin is
0, the debit is the full notional 10 (1000 → 990) rather than
margin + fee = 2, and the stored position carries leverage 1, not the
configured leverage 5. -/
theorem c3_engine_futures_open_no_margin_unit_leverage :
    openRealOpen.realBalance = 990
    ∧ (openRealOpen.activeTrades.getD 0 defaultTrade).leverage = 1
    ∧ futureInitialMargin 10 1 "real" = 0
    ∧ futureTotalCost 10 1 0 "real" = 10
    ∧ openRealOpen.realBalance
      ≠ stRealOpen.realBalance - (10 * 1 / leverage + entryFeeOf 10 1 0)
    ∧ (openRealOpen.activeTrades.getD 0 defaultTrade).leverage ≠ leverage := by
  with_unfolding_all decide

/-- Claim C4 (evaluation at the failing input): a fake-mode spot round
trip (entry price 2, amount 1, zero fees, flat close) debits the wallet
quantity ledger at the open (5 → 4), but the settlement takes the
`trade.type === 'fake'` branch — the spot branch that would restore the
wallet and re-credit the notional requires `trade.type` to be neither
`'fake'` nor `'real'`, which never holds for engine-opened positions — so
the wallet stays at 4 (the position's amount is not credited back), the
fake ledger receives `netPnl + amount` = 1 instead of the notional 2, and
the spot PnL counter is untouched. -/
theorem c4_spot_settlement_skips_wallet_restore :
    stSpotTrip.walletBalance = 5
    ∧ openSpotTrip.walletBalance = 4
    ∧ (handleTradeClosure openSpotTrip (openSpotTrip.activeTrades.getD 0 defaultTrade)
        2 0 0 false).walletBalance = 4
    ∧ (handleTradeClosure openSpotTrip (openSpotTrip.activeTrades.getD 0 defaultTrade)
        2 0 0 false).walletBalance
      ≠ openSpotTrip.walletBalance + (openSpotTrip.activeTrades.getD 0 defaultTrade).amount
    ∧ (handleTradeClosure openSpotTrip (openSpotTrip.activeTrades.getD 0 defaultTrade)
        2 0 0 false).fakeBalance = 9
    ∧ (handleTradeClosure openSpotTrip (openSpotTrip.activeTrades.getD 0 defaultTrade)
        2 0 0 false).fakeBalance
      ≠ openSpotTrip.fakeBalance
        + netPnlOf (openSpotTrip.activeTrades.getD 0 defaultTrade) 2 0
        + (openSpotTrip.activeTrades.getD 0 defaultTrade).entryPrice
          * (openSpotTrip.activeTrades.getD 0 defaultTrade).amount
    ∧ (handleTradeClosure openSpotTrip (openSpotTrip.activeTrades.getD 0 defaultTrade)
        2 0 0 false).spotPnL = 0 := by
  with_unfolding_all decide

/-- Claim C5, counterexample: with a neutral indicator snapshot (only the
unconditional SMA ≤ EMA −5 fires), base probability 0 and the cumulative
deviation accumulator at 21 inside the 15-minute window, the clamped
probability is 0 and the session-dampening −5 applied after the clamp
yields −5, which lies outside [0, 100]. -/
theorem c5_dampened_probability_below_zero :
    checkPricesProbability neutralSnapshot 0 21 false = -5
    ∧ ¬ (0 ≤ checkPricesProbability neutralSnapshot 0 21 false) := by
  with_unfolding_all decide

/-- Claim C5, amended: `calculateProbability` itself always lies in
[0, 100]; the flat −5 session-dampening penalty of `checkPrices` is
applied after that clamp and not re-clamped, so the probability the engine
acts on lies in [−5, 100] (and can be negative, per the counterexample). -/
theorem c5_probability_bounds (s : IndicatorSnapshot) (base cum : ℚ)
    (windowElapsed : Bool) :
    0 ≤ calculateProbability s base
    ∧ calculateProbability s base ≤ 100
    ∧ -5 ≤ checkPricesProbability s base cum windowElapsed
    ∧ checkPricesProbability s base cum windowElapsed ≤ 100 := by
  have h1 := clampProbability_nonneg (rawProbability s base)
  have h2 := clampProbability_le_100 (rawProbability s base)
  unfold checkPricesProbability calculateProbability
  dsimp only
  split_ifs <;> exact ⟨h1, h2, by linarith, by linarith⟩

/-- Claim C6: the reallocation guard fires exactly when `netPnl < 0`, the
allocation is unfavorable and the position is not yet reallocated; when it
fires (and the nested open succeeds against the balance and the gateway,
with a fresh id), settlement registers exactly one new position — opposite
direction, same amount, same mode string, allocation favorable — alongside
removing the closed one, and the persisted record of the closed position
has `isReallocated = true`; when the guard does not fire (favorable leg,
already reallocated, or `netPnl ≥ 0`), no position is added and
`isReallocated` is persisted unchanged. -/
theorem c6_reallocation_rule (st : EngineState) (trade : Trade)
    (price feeRate rFee : ℚ) (rOk : Bool) :
    ((reallocationTriggered trade price feeRate = true) ↔
      (netPnlOf trade price feeRate < 0 ∧ trade.allocation = Alloc.unfavorable ∧
        trade.isReallocated = false))
    ∧ (reallocationTriggered trade price feeRate = true →
        rOk = true →
        ¬ futureTotalCost price trade.amount rFee trade.type > modeBalance st trade.type →
        st.nextId ≠ trade.id →
        (handleTradeClosure st trade price feeRate rFee rOk).activeTrades
          = st.activeTrades.filter (fun t => t.id != trade.id)
            ++ [openedFutureTrade st price trade.amount (oppositeDirection trade.direction)
                  trade.type Alloc.favorable rFee]
        ∧ (openedFutureTrade st price trade.amount (oppositeDirection trade.direction)
            trade.type Alloc.favorable rFee).amount = trade.amount
        ∧ (openedFutureTrade st price trade.amount (oppositeDirection trade.direction)
            trade.type Alloc.favorable rFee).type = trade.type
        ∧ (openedFutureTrade st price trade.amount (oppositeDirection trade.direction)
            trade.type Alloc.favorable rFee).allocation = Alloc.favorable
        ∧ (openedFutureTrade st price trade.amount (oppositeDirection trade.direction)
            trade.type Alloc.favorable rFee).direction = oppositeDirection trade.direction
        ∧ (closureRecord trade price feeRate).isReallocated = true)
    ∧ (reallocationTriggered trade price feeRate = false →
        (handleTradeClosure st trade price feeRate rFee rOk).activeTrades
          = st.activeTrades.filter (fun t => t.id != trade.id)
        ∧ (closureRecord trade price feeRate).isReallocated = trade.isReallocated) := by
  refine ⟨?_, ?_, ?_⟩
  · unfold reallocationTriggered
    simp [and_assoc]
  · intro h1 h2 h3 h4
    subst h2
    refine ⟨?_, rfl, rfl, rfl, rfl, ?_⟩
    · rw [handleTradeClosure_activeTrades, if_pos h1,
        placeFutureTrade_activeTrades_ok st price trade.amount
          (oppositeDirection trade.direction) trade.type Alloc.favorable rFee h3,
        List.filter_append]
      simp [openedFutureTrade, h4]
    · unfold closureRecord
      dsimp only
      rw [if_pos h1]
  · intro h0
    constructor
    · rw [handleTradeClosure_activeTrades, if_neg (by simp [h0])]
    · unfold closureRecord
      dsimp only
      rw [if_neg (by simp [h0])]

/-- Claim C6, witness: closing the concrete unfavorable losing position
`tradeRealloc` at price 9 in state `stRealloc` opens exactly the expected
favorable short with the same amount and mode, and records
`isReallocated = true`. -/
theorem c6_reallocation_rule_witness :
    (handleTradeClosure stRealloc tradeRealloc 9 0 0 true).activeTrades
      = stRealloc.activeTrades.filter (fun t => t.id != tradeRealloc.id)
        ++ [openedFutureTrade stRealloc 9 tradeRealloc.amount
              (oppositeDirection tradeRealloc.direction) tradeRealloc.type Alloc.favorable 0]
    ∧ (openedFutureTrade stRealloc 9 tradeRealloc.amount
        (oppositeDirection tradeRealloc.direction) tradeRealloc.type
        Alloc.favorable 0).amount = tradeRealloc.amount
    ∧ (openedFutureTrade stRealloc 9 tradeRealloc.amount
        (oppositeDirection tradeRealloc.direction) tradeRealloc.type
        Alloc.favorable 0).type = tradeRealloc.type
    ∧ (openedFutureTrade stRealloc 9 tradeRealloc.amount
        (oppositeDirection tradeRealloc.direction) tradeRealloc.type
        Alloc.favorable 0).allocation = Alloc.favorable
    ∧ (openedFutureTrade stRealloc 9 tradeRealloc.amount
        (oppositeDirection tradeRealloc.direction) tradeRealloc.type
        Alloc.favorable 0).direction = oppositeDirection tradeRealloc.direction
    ∧ (closureRecord tradeRealloc 9 0).isReallocated = true :=
  (c6_reallocation_rule stRealloc tradeRealloc 9 0 0 true).2.1
    (by with_unfolding_all decide) rfl
    (by with_unfolding_all decide) (by with_unfolding_all decide)

/-- Claim C7: in one monitor tick, when the (peak-updated) position
satisfies both the take-profit condition and the stop-loss /
trailing-drawdown condition at the current price, the monitor takes the
take-profit branch; the subsequent settlement appends the closure record,
whose outcome is `win` when the net PnL is non-negative. -/
theorem c7_take_profit_precedence (st : EngineState) (t : Trade)
    (price feeRate rFee : ℚ) (rOk : Bool)
    (htp : takeProfitHit (updatePeak t price) price = true)
    (hsl : stopLossHit (updatePeak t price) price = true)
    (hpnl : 0 ≤ netPnlOf (updatePeak t price) price feeRate) :
    (monitorStep t price).2 = MonitorAction.takeProfitClose
    ∧ (closureRecord (updatePeak t price) price feeRate).outcome = Outcome.win
    ∧ (handleTradeClosure st (updatePeak t price) price feeRate rFee rOk).tradeLog
        = st.tradeLog ++ [closureRecord (updatePeak t price) price feeRate] := by
  refine ⟨?_, ?_, handleTradeClosure_tradeLog st (updatePeak t price) price feeRate rFee rOk⟩
  · unfold monitorStep
    dsimp only
    rw [if_pos htp]
  · unfold closureRecord
    dsimp only
    rw [if_pos hpnl]

/-- Claim C7, witness: the concrete long position `tpSlTrade` at price 110
satisfies both exit conditions, the monitor decides take-profit, and the
recorded outcome is a win. -/
theorem c7_take_profit_precedence_witness :
    (monitorStep tpSlTrade 110).2 = MonitorAction.takeProfitClose
    ∧ (closureRecord (updatePeak tpSlTrade 110) 110 0).outcome = Outcome.win
    ∧ (handleTradeClosure emptyState (updatePeak tpSlTrade 110) 110 0 0 false).tradeLog
        = emptyState.tradeLog ++ [closureRecord (updatePeak tpSlTrade 110) 110 0] :=
  c7_take_profit_precedence emptyState tpSlTrade 110 0 0 false
    (by with_unfolding_all decide) (by with_unfolding_all decide)
    (by with_unfolding_all decide)

/-- Claim C8: over any monitor tick and any sequence of observed prices,
`peakProfit` never decreases, and in each tick either both `peakProfit`
and `peakPrice` stay unchanged or `peakProfit` strictly increases and
`peakPrice` moves to the tick's price — the two fields only update in
lockstep. -/
theorem c8_peak_ratchet (t : Trade) (price : ℚ) (prices : List ℚ) :
    t.peakProfit ≤ ((monitorStep t price).1).peakProfit
    ∧ ((((monitorStep t price).1).peakProfit = t.peakProfit
        ∧ ((monitorStep t price).1).peakPrice = t.peakPrice)
       ∨ (t.peakProfit < ((monitorStep t price).1).peakProfit
          ∧ ((monitorStep t price).1).peakPrice = price))
    ∧ t.peakProfit ≤ (prices.foldl (fun a p => (monitorStep a p).1) t).peakProfit := by
  refine ⟨?_, ?_, ?_⟩
  · rw [monitorStep_fst]
    exact updatePeak_peakProfit_le t price
  · rw [monitorStep_fst]
    unfold updatePeak
    split_ifs with h
    · right
      exact ⟨h, rfl⟩
    · left
      exact ⟨rfl, rfl⟩
  · induction prices generalizing t with
    | nil => exact le_refl _
    | cons p ps ih =>
        rw [List.foldl_cons]
        exact le_trans
          (by rw [monitorStep_fst]; exact updatePeak_peakProfit_le t p)
          (ih ((monitorStep t p).1))

/-- Claim C9: when the total cost (fees included) exceeds the selected
mode ledger's balance, both opening routines are a complete no-op: the
returned state is the input state — no ledger debit, no registered
position, no submitted order — because the insufficiency check precedes
every mutation. -/
theorem c9_insufficient_balance_noop (st : EngineState)
    (entryPrice amount feeRate : ℚ) (direction : Direction) (type : String)
    (allocation : Alloc) (orderOk : Bool)
    (hF : futureTotalCost entryPrice amount feeRate type > modeBalance st type)
    (hS : spotTotalCost entryPrice amount feeRate > modeBalance st type) :
    placeFutureTrade st entryPrice amount direction type allocation feeRate orderOk = st
    ∧ placeSpotTrade st entryPrice amount type direction feeRate orderOk = st := by
  constructor
  · unfold placeFutureTrade
    dsimp only
    rw [if_pos hF]
  · unfold placeSpotTrade
    dsimp only
    rw [if_pos hS]

/-- Claim C9, witness: on the empty state (all ledgers 0), opening with
entry price 10 and amount 1 is rejected and leaves the state untouched. -/
theorem c9_insufficient_balance_noop_witness :
    placeFutureTrade emptyState 10 1 Direction.long "fake" Alloc.favorable 0 true = emptyState
    ∧ placeSpotTrade emptyState 10 1 "fake" Direction.long 0 true = emptyState :=
  c9_insufficient_balance_noop emptyState 10 1 0 Direction.long "fake" Alloc.favorable true
    (by with_unfolding_all decide) (by with_unfolding_all decide)

/-- Claim C10: a spot open always derives stop loss and take profit with
the long-direction formulas — for every direction argument, including
short, `stopLoss = entry × (1 − 1.5/100)` and
`takeProfit = entry × (1 + 6/100)` — while the submitted market order's
side does follow the direction (SELL for the short open performed here,
BUY for long). -/
theorem c10_spot_short_uses_long_formulas (st : EngineState)
    (entryPrice amount feeRate : ℚ) (type : String)
    (h : ¬ spotTotalCost entryPrice amount feeRate > modeBalance st type) :
    (placeSpotTrade st entryPrice amount type Direction.short feeRate true).activeTrades
      = st.activeTrades ++ [openedSpotTrade st entryPrice amount type Direction.short feeRate]
    ∧ (∀ direction : Direction,
        (openedSpotTrade st entryPrice amount type direction feeRate).stopLoss
          = entryPrice * (1 - stopLossPercentage / 100)
        ∧ (openedSpotTrade st entryPrice amount type direction feeRate).takeProfit
          = entryPrice * (1 + takeProfitPercentage / 100))
    ∧ (placeSpotTrade st entryPrice amount type Direction.short feeRate true).submittedOrders
      = st.submittedOrders ++ [⟨Side.sell, amount⟩]
    ∧ orderSide Direction.short = Side.sell
    ∧ orderSide Direction.long = Side.buy := by
  refine ⟨?_, fun direction => ⟨rfl, rfl⟩, ?_, rfl, rfl⟩
  · unfold placeSpotTrade debitModeBalance
    dsimp only
    split_ifs <;>
      first
        | rfl
        | exact absurd (by assumption) h
        | exact absurd rfl (by assumption)
  · unfold placeSpotTrade debitModeBalance
    dsimp only
    split_ifs <;>
      first
        | rfl
        | exact absurd (by assumption) h
        | exact absurd rfl (by assumption)

/-- Claim C10, witness: a concrete fake-mode short spot open at entry
price 10 registers the position with the long-formula stop loss and take
profit and submits a SELL order. -/
theorem c10_spot_short_uses_long_formulas_witness :
    (placeSpotTrade stBalances 10 1 "fake" Direction.short 0 true).activeTrades
      = stBalances.activeTrades ++ [openedSpotTrade stBalances 10 1 "fake" Direction.short 0]
    ∧ (∀ direction : Direction,
        (openedSpotTrade stBalances 10 1 "fake" direction 0).stopLoss
          = 10 * (1 - stopLossPercentage / 100)
        ∧ (openedSpotTrade stBalances 10 1 "fake" direction 0).takeProfit
          = 10 * (1 + takeProfitPercentage / 100))
    ∧ (placeSpotTrade stBalances 10 1 "fake" Direction.short 0 true).submittedOrders
      = stBalances.submittedOrders ++ [⟨Side.sell, 1⟩]
    ∧ orderSide Direction.short = Side.sell
    ∧ orderSide Direction.long = Side.buy :=
  c10_spot_short_uses_long_formulas stBalances 10 1 0 "fake"
    (by with_unfolding_all decide)

end HFT
